import Mathlib

/-!
Verification of the obs-bot grade scraper (`src/obs_scraper.py`): a shallow
embedding of its grade-diff engine, captcha arithmetic solver, OCR reading
selection, table-fallback search, captcha image preprocessing and the
captcha-answer pipeline, together with theorems settling the specification's
claims about them.
-/

/-! ## String helpers shared by several embedded functions -/

/-- Whether the first character list is an initial segment of the second. -/
def startsWithChars : List Char → List Char → Bool
  | [], _ => true
  | _ :: _, [] => false
  | a :: as, b :: bs => a == b && startsWithChars as bs

/-- Whether the first character list occurs as a contiguous sublist of the
second. -/
def occursInChars (needle : List Char) : List Char → Bool
  | [] => startsWithChars needle []
  | c :: rest => startsWithChars needle (c :: rest) || occursInChars needle rest

/-- Models the Python substring test `needle in s` (used for `'429' in str(e)`,
`'=?' in text`, `'vize' in text_lower`). -/
def occursIn (needle s : String) : Bool := occursInChars needle.data s.data

/-- Models the Python membership test `c in s` for a single character. -/
def strContainsChar (s : String) (c : Char) : Bool := s.data.contains c

/-- Models Python `str.strip()`: removes leading and trailing whitespace
(Python also strips `\f`/`\v`; the portal's strings never contain them). -/
def pyStrip (s : String) : String :=
  String.mk (((s.data.dropWhile Char.isWhitespace).reverse.dropWhile
    Char.isWhitespace).reverse)

/-- Models Python `str.lower()` on the ASCII strings the scraper handles. -/
def pyLower (s : String) : String := String.mk (s.data.map Char.toLower)

/-- Models Python `str.upper()` on the ASCII strings the scraper handles. -/
def pyUpper (s : String) : String := String.mk (s.data.map Char.toUpper)

/-- Models Python `str.replace(a, b)` for single characters (used for
`text.replace(',', '.')`). -/
def replaceChar (a b : Char) (s : String) : String :=
  String.mk (s.data.map fun c => if c == a then b else c)

/-- Worker for `pySplitChar`. -/
def splitCharGo (sep : Char) : List Char → List Char → List String
  | [], cur => [String.mk cur.reverse]
  | d :: rest, cur =>
      if d == sep then String.mk cur.reverse :: splitCharGo sep rest []
      else splitCharGo sep rest (d :: cur)

/-- Models Python `str.split(sep)` for a one-character separator (used for
`text.split(':')`), keeping empty parts as Python does. -/
def pySplitChar (sep : Char) (s : String) : List String := splitCharGo sep s.data []

/-- Worker for `pySplitWs`. -/
def splitWsGo : List Char → List Char → List String
  | [], cur => if cur = [] then [] else [String.mk cur.reverse]
  | c :: rest, cur =>
      if c.isWhitespace then
        if cur = [] then splitWsGo rest []
        else String.mk cur.reverse :: splitWsGo rest []
      else splitWsGo rest (c :: cur)

/-- Models Python `str.split()` with no argument (used for
`details_text.split()`): split on whitespace runs, dropping empty parts. -/
def pySplitWs (s : String) : List String := splitWsGo s.data []

/-- Worker for `digitRuns`: walks the characters, accumulating the current
maximal digit run (in reverse) in the second argument. -/
def digitRunsGo : List Char → List Char → List (List Char)
  | [], cur => if cur = [] then [] else [cur.reverse]
  | c :: rest, cur =>
      if c.isDigit then digitRunsGo rest (c :: cur)
      else if cur = [] then digitRunsGo rest []
      else cur.reverse :: digitRunsGo rest []

/-- Models Python's `re.findall(r'\d+', s)`: the maximal runs of decimal
digits of `s`, in order of occurrence. -/
def digitRuns (s : String) : List (List Char) := digitRunsGo s.data []

/-- Models Python's `int(...)` applied to a non-empty string of decimal
digits (the only strings the scraper converts): its base-10 value. -/
def natOfDigits (cs : List Char) : Nat :=
  cs.foldl (fun n c => 10 * n + (c.toNat - ('0').toNat)) 0

/-! ## Grade records and the diff engine (`get_new_grades`) -/

/-- One grade row as built by `OBSSession.fetch_grades`: the dict
`{"course_code", "course_name", "grade", "exam_grades", "status"}`.
The values of `exam_grades` come from Python `float(...)`; the diff engine and
the claims never inspect them, so we keep that value type as a parameter `ν`. -/
structure GradeRecord (ν : Type) where
  course_code : String
  course_name : String
  grade : String
  status : String
  exam_grades : List (String × ν)
deriving DecidableEq

/-- The `cached_lookup` dict of `get_new_grades`, built by the loop
`for g in cached_grades: if g['grade']: cached_lookup[g['course_code']] = g['grade']`.
A Python dict written by successive assignments is modelled as an association
list with the most recent write at the head, read through `List.lookup`
(first hit = latest write). -/
def buildCachedLookup {ν : Type} (cached_grades : List (GradeRecord ν)) :
    List (String × String) :=
  cached_grades.foldl
    (fun acc g => if g.grade = "" then acc else (g.course_code, g.grade) :: acc) []

/-- Embedding of `get_new_grades(cached_grades, current_grades)`
(src/obs_scraper.py): keeps, in `current_grades` order, each current record
with a non-empty grade whose code is missing from `cached_lookup` or mapped to
a different grade string. -/
def get_new_grades {ν : Type} (cached_grades current_grades : List (GradeRecord ν)) :
    List (GradeRecord ν) :=
  let lookup := buildCachedLookup cached_grades
  current_grades.filter fun g =>
    if g.grade = "" then false
    else
      match lookup.lookup g.course_code with
      | none => true
      | some cached => cached != g.grade

/-- Modelled from the spec's words for the C1 refinement comparison: "build a
mapping from course_code to grade value using only `previous` records whose
grade is non-empty"; the mapping is a function, built by left-to-right
insertion. -/
def specGradeMapping {ν : Type} (previous : List (GradeRecord ν)) :
    String → Option String :=
  previous.foldl
    (fun m g =>
      if g.grade = "" then m
      else fun k => if k = g.course_code then some g.grade else m k)
    (fun _ => none)

/-- Modelled from the spec's words for the C1 refinement comparison: "emit, in
`current`'s order, every record of `current` with a non-empty grade whose
course_code is absent from that mapping or is mapped to a grade string that
differs under exact string equality". -/
def specDiff {ν : Type} (previous current : List (GradeRecord ν)) :
    List (GradeRecord ν) :=
  current.filter fun g =>
    g.grade != "" &&
      match specGradeMapping previous g.course_code with
      | none => true
      | some v => v != g.grade

/-- The grade of the last record of the list with the given course code and a
non-empty grade, if any (used to characterise dict-overwrite semantics). -/
def lastNonEmptyGrade {ν : Type} : List (GradeRecord ν) → String → Option String
  | [], _ => none
  | g :: rest, k =>
      match lastNonEmptyGrade rest k with
      | some v => some v
      | none => if g.course_code == k && g.grade != "" then some g.grade else none

theorem lookup_buildCachedLookup_aux {ν : Type} (prev : List (GradeRecord ν)) :
    ∀ (acc : List (String × String)) (k : String),
      List.lookup k
        (prev.foldl
          (fun acc g =>
            if g.grade = "" then acc else (g.course_code, g.grade) :: acc) acc) =
        match lastNonEmptyGrade prev k with
        | some v => some v
        | none => List.lookup k acc := by
  induction prev with
  | nil => intro acc k; simp [lastNonEmptyGrade]
  | cons g rest ih =>
    intro acc k
    simp only [List.foldl_cons]
    rw [ih]
    cases hrest : lastNonEmptyGrade rest k with
    | some v => simp [lastNonEmptyGrade, hrest]
    | none =>
      simp only [lastNonEmptyGrade, hrest]
      by_cases hg : g.grade = ""
      · simp [hg]
      · by_cases hk : g.course_code = k
        · simp [hg, hk, List.lookup]
        · have : ¬ (k == g.course_code) = true := by
            simp [beq_iff_eq]; exact fun h => hk h.symm
          simp [hg, hk, List.lookup, this]

theorem lookup_buildCachedLookup {ν : Type} (prev : List (GradeRecord ν)) (k : String) :
    List.lookup k (buildCachedLookup prev) = lastNonEmptyGrade prev k := by
  unfold buildCachedLookup
  rw [lookup_buildCachedLookup_aux prev [] k]
  cases lastNonEmptyGrade prev k <;> simp [List.lookup]

theorem specGradeMapping_aux {ν : Type} (prev : List (GradeRecord ν)) :
    ∀ (m : String → Option String) (k : String),
      (prev.foldl
        (fun m g =>
          if g.grade = "" then m
          else fun k => if k = g.course_code then some g.grade else m k) m) k =
        match lastNonEmptyGrade prev k with
        | some v => some v
        | none => m k := by
  induction prev with
  | nil => intro m k; simp [lastNonEmptyGrade]
  | cons g rest ih =>
    intro m k
    simp only [List.foldl_cons]
    rw [ih]
    cases hrest : lastNonEmptyGrade rest k with
    | some v => simp [lastNonEmptyGrade, hrest]
    | none =>
      simp only [lastNonEmptyGrade, hrest]
      by_cases hg : g.grade = ""
      · simp [hg]
      · by_cases hk : g.course_code = k
        · simp [hg, hk]
        · have : ¬ k = g.course_code := fun h => hk h.symm
          simp [hg, hk, this]

theorem specGradeMapping_eq_last {ν : Type} (prev : List (GradeRecord ν)) (k : String) :
    specGradeMapping prev k = lastNonEmptyGrade prev k := by
  unfold specGradeMapping
  rw [specGradeMapping_aux prev (fun _ => none) k]
  cases lastNonEmptyGrade prev k <;> simp

/-- C1: `get_new_grades(P, C)` returns exactly the records computed by the
spec's algorithm: build a course_code → grade mapping from the non-empty-grade
records of `P`, then emit, in `C`'s order, every record of `C` with a
non-empty grade whose code is absent from the mapping or mapped to a grade
string differing under exact string equality. -/
theorem get_new_grades_matches_spec {ν : Type}
    (previous current : List (GradeRecord ν)) :
    get_new_grades previous current = specDiff previous current := by
  unfold get_new_grades specDiff
  have hpred :
      (fun (g : GradeRecord ν) =>
        if g.grade = "" then false
        else
          match (buildCachedLookup previous).lookup g.course_code with
          | none => true
          | some cached => cached != g.grade) =
      (fun (g : GradeRecord ν) =>
        g.grade != "" &&
          match specGradeMapping previous g.course_code with
          | none => true
          | some v => v != g.grade) := by
    funext g
    rw [lookup_buildCachedLookup, specGradeMapping_eq_last]
    by_cases hg : g.grade = ""
    · simp [hg]
    · cases lastNonEmptyGrade previous g.course_code <;> simp [hg]
  exact congrArg (fun p => List.filter p current) hpred

/-- C2: every record in the output of `get_new_grades(P, C)` has a non-empty
grade and is, verbatim, an element of `C`; a record of `C` with an empty grade
is never in the output, whatever `P` is. -/
theorem get_new_grades_output_invariants {ν : Type}
    (previous current : List (GradeRecord ν)) :
    (∀ r ∈ get_new_grades previous current, r.grade ≠ "" ∧ r ∈ current) ∧
    (∀ r ∈ current, r.grade = "" → r ∉ get_new_grades previous current) := by
  constructor
  · intro r hr
    unfold get_new_grades at hr
    rw [List.mem_filter] at hr
    refine ⟨?_, hr.1⟩
    intro hempty
    have := hr.2
    simp [hempty] at this
  · intro r _ hempty hmem
    unfold get_new_grades at hmem
    rw [List.mem_filter] at hmem
    have := hmem.2
    simp [hempty] at this

/-- Witness for C2 at the concrete snapshots `P = []`,
`C = [{BLM207, Algo, AA}]`: the single record is reported, and the theorem
yields that it has a non-empty grade and occurs verbatim in `C`. -/
theorem get_new_grades_output_invariants_witness :
    (⟨"BLM207", "Algo", "AA", "", []⟩ : GradeRecord Nat).grade ≠ "" ∧
      (⟨"BLM207", "Algo", "AA", "", []⟩ : GradeRecord Nat) ∈
        [(⟨"BLM207", "Algo", "AA", "", []⟩ : GradeRecord Nat)] :=
  (get_new_grades_output_invariants (ν := Nat) []
      [⟨"BLM207", "Algo", "AA", "", []⟩]).1
    ⟨"BLM207", "Algo", "AA", "", []⟩ (by decide)

/-- C10: `get_new_grades` compares each current record against the grade of
the *last* previous record with its course code and a non-empty grade (later
occurrences overwrite earlier ones in the dict), so the output is exactly the
filter of `C` by that last-occurrence lookup. -/
theorem get_new_grades_last_occurrence_wins {ν : Type}
    (previous current : List (GradeRecord ν)) :
    get_new_grades previous current =
      current.filter fun g =>
        g.grade != "" &&
          match lastNonEmptyGrade previous g.course_code with
          | none => true
          | some v => v != g.grade := by
  rw [get_new_grades_matches_spec]
  unfold specDiff
  have hpred :
      (fun (g : GradeRecord ν) =>
        g.grade != "" &&
          match specGradeMapping previous g.course_code with
          | none => true
          | some v => v != g.grade) =
      (fun (g : GradeRecord ν) =>
        g.grade != "" &&
          match lastNonEmptyGrade previous g.course_code with
          | none => true
          | some v => v != g.grade) := by
    funext g
    rw [specGradeMapping_eq_last]
  rw [hpred]

/-! ## Captcha arithmetic resolution (`solve_math_captcha`) -/

/-- Embedding of `OBSSession.solve_math_captcha(captcha_text)`: strips the
text, extracts the maximal digit runs; with two or more runs it combines the
first two with the operator found by checking `'+'`, then `'-'`, then
`'*'`/`'x'` (the latter on the lowercased text), defaulting to addition; with
exactly one run of length at least 2 it iterates `i` over
`range(1, len(num_str))` and returns the sum of the first split whose two
parts are both below 100; otherwise it returns `none`. Results are rendered
as Python's `str` of the (possibly negative) integer. -/
def solve_math_captcha (captcha_text : String) : Option String :=
  let s := pyStrip captcha_text
  match digitRuns s with
  | n1 :: n2 :: _ =>
      let num1 : Int := (natOfDigits n1 : Nat)
      let num2 : Int := (natOfDigits n2 : Nat)
      let result : Int :=
        if strContainsChar s '+' then num1 + num2
        else if strContainsChar s '-' then num1 - num2
        else if strContainsChar s '*' || strContainsChar (pyLower s) 'x' then
          num1 * num2
        else num1 + num2
      some (toString result)
  | [n] =>
      if n.length ≥ 2 then
        (List.range' 1 (n.length - 1)).findSome? fun i =>
          let num1 := natOfDigits (n.take i)
          let num2 := natOfDigits (n.drop i)
          if num1 < 100 && num2 < 100 then some (toString (num1 + num2)) else none
      else none
  | [] => none

/-- The three operators the captcha solver can apply. -/
inductive CaptchaOp
  | add
  | sub
  | mul
deriving DecidableEq

/-- Evaluation of a `CaptchaOp` on integer operands. -/
def applyCaptchaOp : CaptchaOp → Int → Int → Int
  | CaptchaOp.add, a, b => a + b
  | CaptchaOp.sub, a, b => a - b
  | CaptchaOp.mul, a, b => a * b

/-- Modelled from the spec's words for the C3 refinement comparison: "pick
operator by first match among `+`, `-`, `*`/`x` (case-insensitive) found in
the text; default to addition if none found" — an ordered candidate list
searched for its first present operator. -/
def specPickOperator (s : String) : CaptchaOp :=
  match ([(CaptchaOp.add, strContainsChar s '+'),
          (CaptchaOp.sub, strContainsChar s '-'),
          (CaptchaOp.mul, strContainsChar s '*' || strContainsChar (pyLower s) 'x')].find?
            fun p => p.2) with
  | some p => p.1
  | none => CaptchaOp.add

/-- Modelled from the spec's words for the C3 refinement comparison: the
arithmetic-resolution algorithm as the spec states it (operator chosen by the
ordered candidate search, single merged numeral repaired via the first valid
binary split). -/
def specSolveCaptcha (captcha_text : String) : Option String :=
  let s := pyStrip captcha_text
  match digitRuns s with
  | n1 :: n2 :: _ =>
      some (toString (applyCaptchaOp (specPickOperator s)
        (natOfDigits n1 : Nat) (natOfDigits n2 : Nat)))
  | [n] =>
      if n.length ≥ 2 then
        (List.range' 1 (n.length - 1)).findSome? fun i =>
          let num1 := natOfDigits (n.take i)
          let num2 := natOfDigits (n.drop i)
          if num1 < 100 && num2 < 100 then some (toString (num1 + num2)) else none
      else none
  | [] => none

/-- C3: `solve_math_captcha` agrees with the spec's algorithm on every input
(two or more digit runs: operator by first match among `+`, `-`, `*`/`x`
case-insensitively, defaulting to addition; one run: sum of the first binary
split with both parts below 100; otherwise nothing), and in particular
`"61+8=?"` yields `"69"` and `"42-5"` yields `"37"`. -/
theorem solve_math_captcha_spec :
    (∀ s, solve_math_captcha s = specSolveCaptcha s) ∧
    solve_math_captcha "61+8=?" = some "69" ∧
    solve_math_captcha "42-5" = some "37" := by
  refine ⟨?_, by decide, by decide⟩
  intro s
  simp only [solve_math_captcha, specSolveCaptcha]
  cases hruns : digitRuns (pyStrip s) with
  | nil => rfl
  | cons n1 tail =>
    cases tail with
    | nil => rfl
    | cons n2 rest =>
      simp only
      congr 1
      simp only [specPickOperator, applyCaptchaOp, List.find?]
      by_cases h1 : strContainsChar (pyStrip s) '+'
      · simp [h1]
      · by_cases h2 : strContainsChar (pyStrip s) '-'
        · simp [h1, h2]
        · by_cases h3 :
            (strContainsChar (pyStrip s) '*' ||
              strContainsChar (pyLower (pyStrip s)) 'x') = true
          · simp [h1, h2, h3, applyCaptchaOp]
          · simp [h1, h2, h3, applyCaptchaOp]

/-! ## OCR engine configurations (`_try_multiple_ocr_approaches`) -/

/-- The three tesseract configuration strings of
`OBSSession._try_multiple_ocr_approaches`, verbatim from the source. -/
def ocrConfigs : List String :=
  ["--oem 3 --psm 7 -c tessedit_char_whitelist=0123456789+=?",
   "--oem 3 --psm 8 -c tessedit_char_whitelist=0123456789+=?",
   "--oem 3 --psm 6 -c tessedit_char_whitelist=0123456789+=?"]

/-- The characters after the first occurrence of `marker` in the list, if
`marker` occurs at all. -/
def afterMarker (marker : List Char) : List Char → Option (List Char)
  | [] => if startsWithChars marker [] then some [] else none
  | c :: rest =>
      if startsWithChars marker (c :: rest) then
        some ((c :: rest).drop marker.length)
      else afterMarker marker rest

/-- The character whitelist a tesseract configuration string imposes: the
text following its `tessedit_char_whitelist=` option (empty when absent). -/
def whitelistOf (cfg : String) : String :=
  match afterMarker "tessedit_char_whitelist=".data cfg.data with
  | some cs => String.mk cs
  | none => ""

/-- Counterexample to C6: the claim requires the minus sign in every OCR
configuration's whitelist, but no configuration's whitelist contains `'-'`
(each is the literal `0123456789+=?`). -/
theorem ocr_whitelist_missing_minus :
    (ocrConfigs.all fun cfg => strContainsChar (whitelistOf cfg) '-') = false ∧
    whitelistOf "--oem 3 --psm 7 -c tessedit_char_whitelist=0123456789+=?" =
      "0123456789+=?" := by
  constructor
  · decide
  · decide

/-- C6 (amended): every OCR engine configuration constrains recognition to
exactly the character set `0123456789+=?` — the ten digits, plus sign, equals
sign and question mark; the minus sign is in no configuration's whitelist. -/
theorem ocr_whitelist_exact :
    ocrConfigs ≠ [] ∧
    (ocrConfigs.all fun cfg => whitelistOf cfg = "0123456789+=?") = true ∧
    (ocrConfigs.all fun cfg => strContainsChar (whitelistOf cfg) '-') = false := by
  refine ⟨by decide, by decide, by decide⟩

/-! ## OCR reading scoring and selection (`_get_captcha_answer`) -/

/-- Embedding of the nested `score_result(text)` of
`OBSSession._get_captcha_answer`: the fixed captcha-likeness rubric. -/
def score_result (text : String) : Int :=
  let opScore : Int :=
    if strContainsChar text '+' then 15
    else if strContainsChar text '-' then 12
    else 0
  let eqScore : Int :=
    if occursIn "=?" text then 10
    else if strContainsChar text '=' then 5
    else 0
  let nums := digitRuns text
  let numScore : Int :=
    if nums.length ≥ 2 then
      (if (nums.take 2).all (fun n => 1 ≤ natOfDigits n && natOfDigits n < 200)
        then 8 else 0) +
      (if (nums.getD 0 []).length ≥ 2 then 3 else 0)
    else 0
  let fewPenalty : Int := if nums.length < 2 then -10 else 0
  let longPenalty : Int := if text.length > 12 then -5 else 0
  let shortPenalty : Int := if text.length < 4 then -5 else 0
  opScore + eqScore + numScore + fewPenalty + longPenalty + shortPenalty

/-- The reading `_get_captcha_answer` selects from a list of OCR readings:
the source sorts the scored readings stably by descending score and takes the
head, i.e. the first element of the list attaining the maximal score.
`selectBest` computes exactly that first maximal element. -/
def selectBest : List String → Option String
  | [] => none
  | r :: rest =>
      match selectBest rest with
      | none => some r
      | some b => if score_result b > score_result r then some b else some r

/-- `list(set(results))` in `_try_multiple_ocr_approaches`: Python's set
iteration order over strings is unspecified (hash-randomized), so the
deduplicated list is constrained only to be duplicate-free with the same
members as `results`. -/
def isSetEnumeration (results out : List String) : Prop :=
  out.Nodup ∧ ∀ s : String, s ∈ out ↔ s ∈ results

/-- Modelled from the claim's words for the C7 comparison: deduplication that
preserves first-encounter order, which is what "ties broken by the order in
which the readings were first encountered" would require. -/
def dedupKeepFirstGo (seen : List String) : List String → List String
  | [] => []
  | a :: rest =>
      if seen.contains a then dedupKeepFirstGo seen rest
      else a :: dedupKeepFirstGo (a :: seen) rest

/-- First-encounter-order deduplication (see `dedupKeepFirstGo`). -/
def dedupKeepFirst (l : List String) : List String := dedupKeepFirstGo [] l

theorem selectBest_eq_none_iff (l : List String) : selectBest l = none ↔ l = [] := by
  cases l with
  | nil => simp [selectBest]
  | cons r rest =>
    simp only [selectBest]
    cases selectBest rest with
    | none => simp
    | some b =>
      by_cases h : score_result b > score_result r <;> simp [h]

theorem selectBest_is_max :
    ∀ (l : List String) (b : String),
      selectBest l = some b → b ∈ l ∧ ∀ r ∈ l, score_result r ≤ score_result b := by
  intro l
  induction l with
  | nil => intro b h; simp [selectBest] at h
  | cons a rest ih =>
    intro b h
    simp only [selectBest] at h
    cases hrest : selectBest rest with
    | none =>
      rw [hrest] at h
      have hab : a = b := Option.some.inj h
      have hnil : rest = [] := (selectBest_eq_none_iff rest).mp hrest
      subst hnil
      subst hab
      refine ⟨List.mem_cons_self a [], ?_⟩
      intro r hr
      rcases List.mem_cons.mp hr with rfl | hr'
      · exact le_refl _
      · simp at hr'
    | some c =>
      rw [hrest] at h
      dsimp only at h
      obtain ⟨hcmem, hcmax⟩ := ih c hrest
      by_cases hgt : score_result c > score_result a
      · rw [if_pos hgt] at h
        have hcb : c = b := Option.some.inj h
        subst hcb
        refine ⟨List.mem_cons_of_mem a hcmem, ?_⟩
        intro r hr
        rcases List.mem_cons.mp hr with rfl | hr'
        · exact le_of_lt hgt
        · exact hcmax r hr'
      · rw [if_neg hgt] at h
        have hab : a = b := Option.some.inj h
        subst hab
        refine ⟨List.mem_cons_self a rest, ?_⟩
        intro r hr
        rcases List.mem_cons.mp hr with rfl | hr'
        · exact le_refl _
        · exact le_trans (hcmax r hr') (not_lt.mp hgt)

/-- Counterexample to C7: `"12+34"` and `"56+78"` score equally (26 each);
`["12+34", "56+78"]` is the encounter order, and `["56+78", "12+34"]` is an
equally valid enumeration of `set(results)`, yet selection over the latter
yields `"56+78"` while the encounter-order tie-break the claim states would
yield `"12+34"` — the tie-break is the set's arbitrary iteration order, not
the encounter order. -/
theorem ocr_selection_tie_counterexample :
    isSetEnumeration ["12+34", "56+78"] ["56+78", "12+34"] ∧
    score_result "12+34" = score_result "56+78" ∧
    selectBest ["56+78", "12+34"] ≠
      selectBest (dedupKeepFirst ["12+34", "56+78"]) := by
  refine ⟨⟨by decide, ?_⟩, by decide, ?_⟩
  · intro s
    constructor
    · intro h
      rcases List.mem_cons.mp h with rfl | h'
      · exact List.mem_cons_of_mem _ (List.mem_cons_self _ _)
      · rcases List.mem_cons.mp h' with rfl | h''
        · exact List.mem_cons_self _ _
        · simp at h''
    · intro h
      rcases List.mem_cons.mp h with rfl | h'
      · exact List.mem_cons_of_mem _ (List.mem_cons_self _ _)
      · rcases List.mem_cons.mp h' with rfl | h''
        · exact List.mem_cons_self _ _
        · simp at h''
  · decide

/-- C7 (amended): the collected readings are deduplicated by exact text (a
duplicate-free list with the same members, in the unspecified iteration order
of Python's set), and the reading selected for arithmetic resolution has
maximal score under the rubric among all collected readings; ties are broken
by the deduplicated list's arbitrary order, not by encounter order. -/
theorem ocr_selection_maximal_score (results out : List String)
    (h : isSetEnumeration results out) (hne : out ≠ []) :
    ∃ b, selectBest out = some b ∧ b ∈ results ∧
      ∀ r ∈ results, score_result r ≤ score_result b := by
  cases hsel : selectBest out with
  | none => exact absurd ((selectBest_eq_none_iff out).mp hsel) hne
  | some b =>
    have hmax := selectBest_is_max out b hsel
    refine ⟨b, rfl, (h.2 b).mp hmax.1, ?_⟩
    intro r hr
    exact hmax.2 r ((h.2 r).mpr hr)

/-- Witness for C7 (amended) at the concrete reading list `["61+8=?"]`
(its own set enumeration): the selected reading is `"61+8=?"` itself, with
maximal score. -/
theorem ocr_selection_maximal_score_witness :
    ∃ b, selectBest ["61+8=?"] = some b ∧ b ∈ ["61+8=?"] ∧
      ∀ r ∈ ["61+8=?"], score_result r ≤ score_result b :=
  ocr_selection_maximal_score ["61+8=?"] ["61+8=?"]
    ⟨by decide, fun s => Iff.rfl⟩ (by decide)

/-! ## Grades-table fallback search (`fetch_grades`, no-predicate-match path) -/

/-- What the fallback search observes of one HTML `<table>`: its `<tr>` count
(`len(rows)`) and its rendered text (`table.text`). -/
structure TableInfo where
  rowCount : Nat
  text : String
deriving DecidableEq

/-- Whether `re.search(r'[A-Z]{2,4}\d{3,4}', s)` finds a match in the
character list: such a match exists exactly when somewhere two consecutive
uppercase ASCII letters are immediately followed by three consecutive digits
(any longer letter/digit runs around that point only extend a match). -/
def hasCodePatternChars : List Char → Bool
  | a :: b :: c :: d :: e :: rest =>
      (a.isUpper && b.isUpper && c.isDigit && d.isDigit && e.isDigit) ||
        hasCodePatternChars (b :: c :: d :: e :: rest)
  | _ => false

/-- Whether a table's text matches the course-code pattern
`[A-Z]{2,4}\d{3,4}` of the fallback search. -/
def hasCourseCodePattern (s : String) : Bool := hasCodePatternChars s.data

/-- The per-table condition of the fallback loop in `fetch_grades`: at least
two rows, and then either a course-code-pattern match in the table text or at
least five rows (`elif len(rows) >= 5`). -/
def qualifiesFallback (t : TableInfo) : Bool :=
  decide (2 ≤ t.rowCount) &&
    (hasCourseCodePattern t.text || decide (5 ≤ t.rowCount))

/-- Embedding of the fallback table search of `fetch_grades` (the loop run
when no xpath predicate matched): scan `all_tables` in document order and
select the first table satisfying `qualifiesFallback`. -/
def fallbackSelect (tables : List TableInfo) : Option TableInfo :=
  tables.find? qualifiesFallback

/-- The first table among those with at least three rows attaining the
maximal row count (used by the spec-side formalisation of C5's words). -/
def largestTableAtLeast3 : List TableInfo → Option TableInfo
  | [] => none
  | t :: rest =>
      match largestTableAtLeast3 rest with
      | none => if 3 ≤ t.rowCount then some t else none
      | some u =>
          if 3 ≤ t.rowCount then
            if u.rowCount > t.rowCount then some u else some t
          else some u

/-- Modelled from the claim's words for the C5 comparison: "first the largest
table with at least three rows; and only if no such table exists, any table
whose cell text matches a course-code-like pattern; if no candidate exists at
all, an empty result". -/
def specFallbackSelect (tables : List TableInfo) : Option TableInfo :=
  match largestTableAtLeast3 tables with
  | some t => some t
  | none => tables.find? fun t => hasCourseCodePattern t.text

/-- Counterexample to C5: on a page whose only table has three rows and no
course-code-like text, the claim's algorithm selects that table (largest with
at least three rows), but the code's fallback selects nothing — the code
requires a pattern match or at least five rows, never "three rows and
largest". -/
theorem fallback_three_row_table_counterexample :
    fallbackSelect [⟨3, "hello"⟩] = none ∧
    specFallbackSelect [⟨3, "hello"⟩] = some ⟨3, "hello"⟩ := by
  constructor
  · decide
  · decide

/-- C5 (amended): the fallback scans the page's tables in document order and
selects the first table that has at least two rows and whose text either
matches the course-code pattern (2–4 uppercase letters then 3–4 digits) or
has at least five rows; it returns nothing exactly when no table qualifies. -/
theorem fallback_selection_characterization (tables : List TableInfo) :
    (fallbackSelect tables = none ↔ ∀ t ∈ tables, qualifiesFallback t = false) ∧
    (∀ pre t post, tables = pre ++ t :: post →
      (∀ u ∈ pre, qualifiesFallback u = false) → qualifiesFallback t = true →
      fallbackSelect tables = some t) ∧
    (∀ t, fallbackSelect tables = some t →
      t ∈ tables ∧ qualifiesFallback t = true) := by
  refine ⟨?_, ?_, ?_⟩
  · unfold fallbackSelect
    rw [List.find?_eq_none]
    constructor
    · intro h t ht
      have := h t ht
      simpa using this
    · intro h t ht
      simp [h t ht]
  · intro pre t post heq hpre hqual
    subst heq
    unfold fallbackSelect
    induction pre with
    | nil => simp [List.find?, hqual]
    | cons u us ih =>
      have hu : qualifiesFallback u = false := hpre u (List.mem_cons_self u us)
      have hus : ∀ v ∈ us, qualifiesFallback v = false := fun v hv =>
        hpre v (List.mem_cons_of_mem u hv)
      simpa [List.find?, hu] using ih hus
  · intro t h
    exact ⟨List.mem_of_find?_eq_some h, List.find?_some h⟩

/-- Witness for C5 (amended) at a concrete page: the single five-row table
qualifies and is selected, and the theorem certifies membership and
qualification. -/
theorem fallback_selection_characterization_witness :
    (⟨5, "a"⟩ : TableInfo) ∈ [(⟨5, "a"⟩ : TableInfo)] ∧
      qualifiesFallback ⟨5, "a"⟩ = true :=
  (fallback_selection_characterization [⟨5, "a"⟩]).2.2 ⟨5, "a"⟩ (by decide)

/-! ## Captcha image preprocessing (`_preprocess_captcha_image`) -/

/-- A single-channel (PIL mode `'L'`) image: dimensions plus a total pixel
function. `_preprocess_captcha_image` starts with `image.convert('L')`, so the
embedding works on grayscale images throughout. -/
structure GrayImage where
  width : Nat
  height : Nat
  pix : Nat → Nat → Nat

/-- Coordinate clamping into `[0, size)`, the edge-replication PIL's rank
filters use at image borders. -/
def clampCoord (n : Int) (size : Nat) : Nat :=
  if n < 0 then 0 else if (size : Int) ≤ n then size - 1 else n.toNat

/-- The 3×3 neighbourhood of a pixel, with replicated edges: the inputs of
PIL's size-3 `MedianFilter`, `MaxFilter` and `MinFilter`. -/
def neighborhood3 (img : GrayImage) (x y : Nat) : List Nat :=
  [img.pix (clampCoord ((x : Int) - 1) img.width) (clampCoord ((y : Int) - 1) img.height),
   img.pix (clampCoord (x : Int) img.width) (clampCoord ((y : Int) - 1) img.height),
   img.pix (clampCoord ((x : Int) + 1) img.width) (clampCoord ((y : Int) - 1) img.height),
   img.pix (clampCoord ((x : Int) - 1) img.width) (clampCoord (y : Int) img.height),
   img.pix (clampCoord (x : Int) img.width) (clampCoord (y : Int) img.height),
   img.pix (clampCoord ((x : Int) + 1) img.width) (clampCoord (y : Int) img.height),
   img.pix (clampCoord ((x : Int) - 1) img.width) (clampCoord ((y : Int) + 1) img.height),
   img.pix (clampCoord (x : Int) img.width) (clampCoord ((y : Int) + 1) img.height),
   img.pix (clampCoord ((x : Int) + 1) img.width) (clampCoord ((y : Int) + 1) img.height)]

/-- Insertion into a sorted list of naturals (worker for `sortNats`). -/
def insertSorted (n : Nat) : List Nat → List Nat
  | [] => [n]
  | m :: rest => if n ≤ m then n :: m :: rest else m :: insertSorted n rest

/-- Insertion sort on naturals (used by the median filter). -/
def sortNats (l : List Nat) : List Nat := l.foldr insertSorted []

/-- The rank PIL's `MedianFilter(size=3)` takes: element `3*3 // 2 = 4` of the
sorted 9-element neighbourhood. -/
def median9 (l : List Nat) : Nat := (sortNats l).getD 4 0

/-- The maximum of a list of naturals. -/
def listMax : List Nat → Nat
  | [] => 0
  | a :: rest => max a (listMax rest)

/-- The minimum of a non-empty list of naturals (0 on the empty list, which
the filters never produce). -/
def listMin : List Nat → Nat
  | [] => 0
  | [a] => a
  | a :: b :: rest => min a (listMin (b :: rest))

/-- PIL `ImageFilter.MedianFilter(size=3)`: size-preserving median of each
3×3 neighbourhood. -/
def medianFilter3 (img : GrayImage) : GrayImage :=
  ⟨img.width, img.height, fun x y => median9 (neighborhood3 img x y)⟩

/-- PIL `ImageFilter.MaxFilter(size=3)` (dilation step of the aggressive
cleanup). -/
def maxFilter3 (img : GrayImage) : GrayImage :=
  ⟨img.width, img.height, fun x y => listMax (neighborhood3 img x y)⟩

/-- PIL `ImageFilter.MinFilter(size=3)` (erosion step of the aggressive
cleanup). -/
def minFilter3 (img : GrayImage) : GrayImage :=
  ⟨img.width, img.height, fun x y => listMin (neighborhood3 img x y)⟩

/-- The `image.point(lambda p: 255 if p > threshold else 0)` map. -/
def binarizePoint (threshold v : Nat) : Nat := if threshold < v then 255 else 0

/-- Binarization of a whole image by `binarizePoint`. -/
def binarizeImage (threshold : Nat) (img : GrayImage) : GrayImage :=
  ⟨img.width, img.height, fun x y => binarizePoint threshold (img.pix x y)⟩

/-- `_preprocess_captcha_image` up to and including binarization: optional
median filter (aggressive mode), then `resize((width*4, height*4), LANCZOS)`,
then the threshold map. `lanczos` abstracts PIL's floating-point LANCZOS
resampling kernel (its pixel values are irrelevant to every claim; the target
dimensions are fixed by the source to 4× each axis). -/
def binarizedStage (lanczos : GrayImage → Nat → Nat → Nat → Nat → Nat)
    (image : GrayImage) (threshold : Nat) (aggressive : Bool) : GrayImage :=
  let img1 := if aggressive then medianFilter3 image else image
  let img2 : GrayImage :=
    ⟨img1.width * 4, img1.height * 4, lanczos img1 (img1.width * 4) (img1.height * 4)⟩
  binarizeImage threshold img2

/-- Embedding of `OBSSession._preprocess_captcha_image(image, threshold,
aggressive)`: grayscale conversion (implicit in `GrayImage`), optional median
filter, 4× LANCZOS upscale, binarization, and in aggressive mode a max-filter
then min-filter pass. -/
def preprocess_captcha_image (lanczos : GrayImage → Nat → Nat → Nat → Nat → Nat)
    (image : GrayImage) (threshold : Nat) (aggressive : Bool) : GrayImage :=
  let img3 := binarizedStage lanczos image threshold aggressive
  if aggressive then minFilter3 (maxFilter3 img3) else img3

theorem listMax_two_valued (l : List Nat)
    (h : ∀ v ∈ l, v = 0 ∨ v = 255) : listMax l = 0 ∨ listMax l = 255 := by
  induction l with
  | nil => left; rfl
  | cons a rest ih =>
    have ha := h a (List.mem_cons_self a rest)
    have hrest := ih fun v hv => h v (List.mem_cons_of_mem a hv)
    simp only [listMax]
    rcases ha with rfl | rfl <;> rcases hrest with h' | h' <;> simp [h']

theorem listMin_two_valued (l : List Nat)
    (h : ∀ v ∈ l, v = 0 ∨ v = 255) : listMin l = 0 ∨ listMin l = 255 := by
  induction l with
  | nil => left; rfl
  | cons a rest ih =>
    have ha := h a (List.mem_cons_self a rest)
    cases rest with
    | nil => simpa [listMin] using ha
    | cons b bs =>
      have hrest := ih fun v hv => h v (List.mem_cons_of_mem a hv)
      simp only [listMin] at hrest ⊢
      rcases ha with rfl | rfl <;> rcases hrest with h' | h' <;> simp [h']

theorem neighborhood3_two_valued (img : GrayImage)
    (h : ∀ a b, img.pix a b = 0 ∨ img.pix a b = 255) (x y : Nat) :
    ∀ v ∈ neighborhood3 img x y, v = 0 ∨ v = 255 := by
  intro v hv
  simp only [neighborhood3, List.mem_cons, List.not_mem_nil, or_false] at hv
  rcases hv with rfl | rfl | rfl | rfl | rfl | rfl | rfl | rfl | rfl <;> exact h _ _

/-- C8: for every input image, threshold and aggressive flag, the
preprocessed captcha variant is exactly 4× the input's width and height,
every output pixel is 0 or 255, and — at the stage before any aggressive-mode
filtering — a pixel of the upscaled image with luminance above the threshold
maps to white (255) and one at or below it maps to black (0); the
non-aggressive output is exactly that binarized stage. -/
theorem preprocess_dims_and_binary
    (lanczos : GrayImage → Nat → Nat → Nat → Nat → Nat)
    (image : GrayImage) (threshold : Nat) (aggressive : Bool) :
    (preprocess_captcha_image lanczos image threshold aggressive).width =
        image.width * 4 ∧
    (preprocess_captcha_image lanczos image threshold aggressive).height =
        image.height * 4 ∧
    (∀ x y, (preprocess_captcha_image lanczos image threshold aggressive).pix x y = 0 ∨
        (preprocess_captcha_image lanczos image threshold aggressive).pix x y = 255) ∧
    (∀ v, threshold < v → binarizePoint threshold v = 255) ∧
    (∀ v, v ≤ threshold → binarizePoint threshold v = 0) ∧
    (∀ x y, (binarizedStage lanczos image threshold aggressive).pix x y =
        binarizePoint threshold
          (lanczos (if aggressive then medianFilter3 image else image)
            ((if aggressive then medianFilter3 image else image).width * 4)
            ((if aggressive then medianFilter3 image else image).height * 4) x y)) ∧
    preprocess_captcha_image lanczos image threshold false =
        binarizedStage lanczos image threshold false := by
  have hbin : ∀ a b, (binarizedStage lanczos image threshold aggressive).pix a b = 0 ∨
      (binarizedStage lanczos image threshold aggressive).pix a b = 255 := by
    intro a b
    simp only [binarizedStage, binarizeImage, binarizePoint]
    by_cases h : threshold <
        lanczos (if aggressive then medianFilter3 image else image)
          ((if aggressive then medianFilter3 image else image).width * 4)
          ((if aggressive then medianFilter3 image else image).height * 4) a b
    · right; simp [h]
    · left; simp [h]
  refine ⟨?_, ?_, ?_, ?_, ?_, ?_, rfl⟩
  · cases aggressive <;>
      simp [preprocess_captcha_image, binarizedStage, binarizeImage,
        minFilter3, maxFilter3, medianFilter3]
  · cases aggressive <;>
      simp [preprocess_captcha_image, binarizedStage, binarizeImage,
        minFilter3, maxFilter3, medianFilter3]
  · intro x y
    cases haggr : aggressive with
    | false =>
      subst haggr
      exact hbin x y
    | true =>
      subst haggr
      simp only [preprocess_captcha_image, if_pos]
      apply listMin_two_valued
      apply neighborhood3_two_valued
      intro a b
      simp only [maxFilter3]
      apply listMax_two_valued
      exact neighborhood3_two_valued _ hbin a b
  · intro v hv; simp [binarizePoint, hv]
  · intro v hv; simp [binarizePoint, Nat.not_lt.mpr hv]
  · intro x y; rfl

/-- Witness for C8 at a concrete 1×1 image, constant resampler, threshold 5,
aggressive off: the evaluated dimensions, two-valuedness at the origin pixel,
and the binarization of luminances 6 (above) and 5 (at threshold). -/
theorem preprocess_dims_and_binary_witness :
    (preprocess_captcha_image (fun _ _ _ _ _ => 6) ⟨1, 1, fun _ _ => 7⟩ 5 false).width =
        1 * 4 ∧
    binarizePoint 5 6 = 255 ∧
    binarizePoint 5 5 = 0 :=
  ⟨(preprocess_dims_and_binary (fun _ _ _ _ _ => 6) ⟨1, 1, fun _ _ => 7⟩ 5 false).1,
   (preprocess_dims_and_binary (fun _ _ _ _ _ => 6) ⟨1, 1, fun _ _ => 7⟩ 5
      false).2.2.2.1 6 (by decide),
   (preprocess_dims_and_binary (fun _ _ _ _ _ => 6) ⟨1, 1, fun _ _ => 7⟩ 5
      false).2.2.2.2.1 5 (by decide)⟩

/-! ## Grade-table row parsing (`fetch_grades` row loops) -/

/-- The letter-grade vocabulary `letter_grades` of `fetch_grades`. -/
def letter_grades : List String :=
  ["AA", "BA", "BB", "CB", "CC", "DC", "DD", "FF", "FD", "NA", "VZ", "MU"]

/-- The result of `re.search(r'\s([A-Z]{2})\s*$', s)`'s capture group (empty
string when there is no match): after discarding trailing whitespace, the
string must end in two uppercase ASCII letters preceded by a whitespace
character; the two letters are the captured grade. -/
def regexTrailingGrade (s : String) : String :=
  match s.data.reverse.dropWhile Char.isWhitespace with
  | b :: a :: w :: _ =>
      if a.isUpper && b.isUpper && w.isWhitespace then String.mk [a, b] else ""
  | _ => ""

/-- Embedding of the curriculum-layout branch of the row loop of
`fetch_grades` (tables whose id contains `grd_ders`), acting on the row's
`<td>` texts: rows with fewer than 7 cells are skipped; otherwise the course
code and name come from the first two cells, the final grade from the last
cell's text via the trailing-two-capitals regex with a
last-token-in-`letter_grades` fallback, and the record is appended
unconditionally — there is no course-code check in this branch. -/
def curriculumRowRecord (ν : Type) (cells : List String) : Option (GradeRecord ν) :=
  if cells.length < 7 then none
  else
    let course_code := pyStrip (cells.getD 0 "")
    let course_name := pyStrip (cells.getD 1 "")
    let details := pyStrip (cells.getLast?.getD "")
    let g1 := regexTrailingGrade details
    let final_grade :=
      if g1 == "" && details != "" then
        match (pySplitWs details).getLast? with
        | some t => if letter_grades.contains t then t else ""
        | none => ""
      else g1
    some ⟨course_code, course_name, final_grade,
      if final_grade != "" then "Final" else "", []⟩

/-- The course-code guess of the generic branch: the first of the row's first
four cell texts that is non-empty, 5–10 characters long, and contains both a
letter and a digit (empty string when no cell qualifies). -/
def guessCourseCode (colTexts : List String) : String :=
  ((colTexts.take 4).find? fun t =>
      t != "" && decide (5 ≤ t.length) && decide (t.length ≤ 10) &&
        t.data.any Char.isAlpha && t.data.any Char.isDigit).getD ""

/-- The course code the generic branch determines for a row: the
`code_idx`-indexed cell when that index is set and in range, otherwise the
guess over the first four cells. -/
def genericCourseCode (codeIdx : Option Nat) (colTexts : List String) : String :=
  match codeIdx with
  | some i => if i < colTexts.length then colTexts.getD i "" else guessCourseCode colTexts
  | none => guessCourseCode colTexts

/-- The right-to-left grade scan of the generic branch
(`for i in range(len(col_texts) - 1, 2, -1)`): from index `i` down to 3,
accept the first cell whose uppercased text is a letter grade, or which the
numeric test accepts; `numOk` abstracts Python's
`0 <= float(text) <= 100` check (`False` on `ValueError`), applied to the
text with `','` replaced by `'.'`. -/
def scanGradeFrom (numOk : String → Bool) (colTexts : List String) : Nat → String
  | 0 => ""
  | 1 => ""
  | 2 => ""
  | i + 3 =>
      let text := pyStrip (colTexts.getD (i + 3) "")
      if letter_grades.contains (pyUpper text) then pyUpper text
      else if numOk (replaceChar ',' '.' text) then text
      else scanGradeFrom numOk colTexts (i + 2)

/-- The opportunistic exam-score parse of the generic branch: every cell
whose lowercased text contains `vize` or which contains `':'` and splits on
`':'` into exactly two parts contributes `label → parsed value`; `parseF`
abstracts Python's `float(...)` (with `','` already replaced by `'.'`),
`none` on failure. -/
def genericExamGrades {ν : Type} (parseF : String → Option ν)
    (colTexts : List String) : List (String × ν) :=
  colTexts.foldr
    (fun text acc =>
      if occursIn "vize" (pyLower text) || strContainsChar text ':' then
        match pySplitChar ':' text with
        | [label, value] =>
            match parseF (replaceChar ',' '.' (pyStrip value)) with
            | some v => (pyStrip label, v) :: acc
            | none => acc
        | _ => acc
      else acc) []

/-- Embedding of the generic-table branch of the row loop of `fetch_grades`,
acting on the row's `<td>` texts with the header-derived column indices:
rows with fewer than 3 cells are skipped; the course code comes from
`genericCourseCode`; the name from `name_idx`, else the cell after the code
column; the grade from `grade_idx`, else the right-to-left scan; rows whose
determined course code is empty are skipped; everything else is admitted,
empty grade included. -/
def genericRowRecord {ν : Type} (numOk : String → Bool)
    (parseF : String → Option ν) (codeIdx nameIdx gradeIdx : Option Nat)
    (cells : List String) : Option (GradeRecord ν) :=
  if cells.length < 3 then none
  else
    let colTexts := cells.map pyStrip
    let course_code := genericCourseCode codeIdx colTexts
    let newCodeIdx : Option Nat :=
      match codeIdx with
      | some i =>
          if i < colTexts.length then some i
          else
            match (colTexts.take 4).findIdx? (fun t =>
                t != "" && decide (5 ≤ t.length) && decide (t.length ≤ 10) &&
                  t.data.any Char.isAlpha && t.data.any Char.isDigit) with
            | some j => some j
            | none => some i
      | none =>
          (colTexts.take 4).findIdx? fun t =>
            t != "" && decide (5 ≤ t.length) && decide (t.length ≤ 10) &&
              t.data.any Char.isAlpha && t.data.any Char.isDigit
    let course_name :=
      match nameIdx with
      | some i =>
          if i < colTexts.length then colTexts.getD i ""
          else
            match newCodeIdx with
            | some j => if j + 1 < colTexts.length then colTexts.getD (j + 1) "" else ""
            | none => ""
      | none =>
          match newCodeIdx with
          | some j => if j + 1 < colTexts.length then colTexts.getD (j + 1) "" else ""
          | none => ""
    let gradeFromIdx :=
      match gradeIdx with
      | some i => if i < colTexts.length then colTexts.getD i "" else ""
      | none => ""
    let final_grade :=
      if gradeFromIdx == "" then scanGradeFrom numOk colTexts (colTexts.length - 1)
      else gradeFromIdx
    let exam_grades := genericExamGrades parseF colTexts
    if course_code == "" then none
    else some ⟨course_code, course_name, final_grade, "", exam_grades⟩

/-- Counterexample to C4: a curriculum-layout row with 7 cells whose first
cell (the course code) is empty is still admitted as a record — the
curriculum branch never checks the course code, contradicting the claim that
a row with no determinable course code is skipped. -/
theorem curriculum_row_empty_code_admitted :
    curriculumRowRecord Nat ["", "Algebra", "x", "x", "x", "x", "1 2 AA"] =
      some ⟨"", "Algebra", "AA", "Final", []⟩ ∧
    curriculumRowRecord Nat ["", "Algebra", "x", "x", "x", "x", "1 2 AA"] ≠ none := by
  constructor
  · decide
  · decide

/-- C4 (amended): a row is skipped when it has fewer structural cells than
the layout's minimum (7 for curriculum, 3 for generic); a curriculum row with
at least 7 cells is always admitted (even with an empty course code), while a
generic row is additionally skipped exactly when its determined course code
is empty; an admitted generic record carries the determined code, and an
empty grade never causes a skip in either layout. -/
theorem row_admission_rules (ν : Type) (numOk : String → Bool)
    (parseF : String → Option ν) (codeIdx nameIdx gradeIdx : Option Nat)
    (cells : List String) :
    (cells.length < 7 → curriculumRowRecord ν cells = none) ∧
    (7 ≤ cells.length → ∃ r, curriculumRowRecord ν cells = some r) ∧
    (genericRowRecord numOk parseF codeIdx nameIdx gradeIdx cells = none ↔
      cells.length < 3 ∨ genericCourseCode codeIdx (cells.map pyStrip) = "") ∧
    (∀ r, genericRowRecord numOk parseF codeIdx nameIdx gradeIdx cells = some r →
      r.course_code = genericCourseCode codeIdx (cells.map pyStrip)) := by
  refine ⟨?_, ?_, ?_, ?_⟩
  · intro h
    simp [curriculumRowRecord, h]
  · intro h
    have : ¬ cells.length < 7 := Nat.not_lt.mpr h
    simp only [curriculumRowRecord, if_neg this]
    exact ⟨_, rfl⟩
  · unfold genericRowRecord
    by_cases hlen : cells.length < 3
    · simp [hlen]
    · simp only [if_neg hlen]
      by_cases hcode : genericCourseCode codeIdx (cells.map pyStrip) = ""
      · simp [hcode, hlen]
      · have : ¬ (genericCourseCode codeIdx (cells.map pyStrip) == "") = true := by
          simpa using hcode
        simp [this, hlen, hcode]
  · intro r h
    unfold genericRowRecord at h
    by_cases hlen : cells.length < 3
    · simp [hlen] at h
    · simp only [if_neg hlen] at h
      by_cases hcode : genericCourseCode codeIdx (cells.map pyStrip) = ""
      · simp [hcode] at h
      · have hne : ¬ (genericCourseCode codeIdx (cells.map pyStrip) == "") = true := by
          simpa using hcode
        simp only [hne, if_neg, Bool.not_eq_true, if_false] at h
        cases h
        rfl

/-- Witness for C4 (amended) at concrete rows: a 6-cell curriculum row is
skipped; the 7-cell row of the counterexample is admitted; a generic row
`["BLM207", "Algo", ""]` (3 cells, determinable code, empty grade) is
admitted with course code `BLM207`. -/
theorem row_admission_rules_witness :
    curriculumRowRecord Nat ["a", "b", "c", "d", "e", "f"] = none ∧
    (∃ r, curriculumRowRecord Nat ["", "Algebra", "x", "x", "x", "x", "1 2 AA"] = some r) ∧
    (∀ r, genericRowRecord (ν := Nat) (fun _ => false) (fun _ => none)
        none none none ["BLM207", "Algo", ""] = some r →
      r.course_code = genericCourseCode none (["BLM207", "Algo", ""].map pyStrip)) :=
  ⟨(row_admission_rules Nat (fun _ => false) (fun _ => none) none none none
      ["a", "b", "c", "d", "e", "f"]).1 (by decide),
   (row_admission_rules Nat (fun _ => false) (fun _ => none) none none none
      ["", "Algebra", "x", "x", "x", "x", "1 2 AA"]).2.1 (by decide),
   (row_admission_rules Nat (fun _ => false) (fun _ => none) none none none
      ["BLM207", "Algo", ""]).2.2.2⟩

/-! ## Captcha-answer pipeline (`_solve_captcha_with_gemini`,
`_get_captcha_answer`) -/

/-- The `models_to_try` list of `_solve_captcha_with_gemini`, verbatim. -/
def models_to_try : List String :=
  ["gemini-2.0-flash", "gemini-2.0-flash-exp", "gemini-1.5-flash",
   "gemini-1.5-flash-latest", "gemini-1.5-pro", "gemini-1.5-pro-latest",
   "gemini-pro", "models/gemini-1.5-flash", "models/gemini-1.5-pro"]

/-- The rate-limit test `"429" in str(e)`. -/
def contains429 (e : String) : Bool := occursIn "429" e

/-- The inner retry loop (`max_gemini_retries = 2`) for one model:
`call m i` is the outcome of `client.models.generate_content` for model `m`
on attempt `i` — `Except.ok` carries `response.text` (possibly empty),
`Except.error` a raised exception's text. Attempt 0 is retried once when the
error mentions 429; any other error, or an error on attempt 1, is re-raised
(to be caught by the per-model handler). -/
def tryModel (call : String → Nat → Except String String) (m : String) :
    Except String String :=
  match call m 0 with
  | Except.ok r => Except.ok r
  | Except.error e => if contains429 e then call m 1 else Except.error e

/-- The per-model loop of `_solve_captcha_with_gemini`: each model's raised
errors are swallowed (`except Exception: continue`); the first model
producing a response wins. -/
def findGeminiResponse (call : String → Nat → Except String String) :
    List String → Option String
  | [] => none
  | m :: rest =>
      match tryModel call m with
      | Except.ok r => some r
      | Except.error _ => findGeminiResponse call rest

/-- The answer-extraction tail of `_solve_captcha_with_gemini`:
`answer = response.text.strip()` followed by `re.sub(r'[^0-9]', '', answer)`. -/
def extractDigitsAnswer (s : String) : String :=
  String.mk ((pyStrip s).data.filter Char.isDigit)

/-- The body of `_solve_captcha_with_gemini` after a successful setup: find a
response across the model list, then return the cleaned digit string if the
response text and the cleaned answer are both non-empty. -/
def solveGeminiBody (call : String → Nat → Except String String) : Option String :=
  match findGeminiResponse call models_to_try with
  | none => none
  | some rtext =>
      if rtext != "" then
        if extractDigitsAnswer rtext != "" then some (extractDigitsAnswer rtext)
        else none
      else none

/-- Embedding of `_solve_captcha_with_gemini(image)` as an `Except`
computation, with the availability guards and the outer
`except Exception: return None` handler rendered explicitly. `setup`
abstracts the client construction and image serialisation (which may raise);
`call` abstracts the per-model, per-attempt API call. The result is
`Except.ok` of the returned optional answer whenever the function returns
(rather than propagating an exception). -/
def solve_captcha_with_geminiE (geminiAvailable apiKeyConfigured : Bool)
    (setup : Except String Unit) (call : String → Nat → Except String String) :
    Except String (Option String) :=
  if !geminiAvailable then Except.ok none
  else if !apiKeyConfigured then Except.ok none
  else
    match (match setup with
           | Except.ok _ => Except.ok (solveGeminiBody call)
           | Except.error e => Except.error e : Except String (Option String)) with
    | Except.ok v => Except.ok v
    | Except.error _ => Except.ok none

/-- The value `_solve_captcha_with_gemini` returns to its caller. -/
def solve_captcha_with_gemini (geminiAvailable apiKeyConfigured : Bool)
    (setup : Except String Unit) (call : String → Nat → Except String String) :
    Option String :=
  match solve_captcha_with_geminiE geminiAvailable apiKeyConfigured setup call with
  | Except.ok v => v
  | Except.error _ => none

/-- The OCR-tier tail of `_get_captcha_answer`: run
`_try_multiple_ocr_approaches` (may raise — `ocr img` is its outcome), and if
any readings were collected, select the best-scoring one and resolve it
arithmetically. -/
def ocrBranch {α : Type} (ocr : α → Except String (List String)) (img : α) :
    Except String (Option String) :=
  match ocr img with
  | Except.error e => Except.error e
  | Except.ok results =>
      Except.ok
        (match selectBest results with
         | none => none
         | some best => solve_math_captcha best)

/-- What the OCR tier alone would answer (the raised-exception case becoming
the handler's `None`). -/
def ocrTierAnswer {α : Type} (ocr : α → Except String (List String)) (img : α) :
    Option String :=
  match ocr img with
  | Except.error _ => none
  | Except.ok results =>
      match selectBest results with
      | none => none
      | some best => solve_math_captcha best

/-- The try-block body of `_get_captcha_answer`: acquire the captcha image
(element lookup, screenshot, decode — any step may raise), consult the vision
tier when configured, and fall through to the OCR tier unless the vision
answer is truthy (non-`None` and non-empty). -/
def get_captcha_answer_body {α : Type} (acquire : Except String α)
    (geminiConfigured : Bool) (gemini : α → Option String)
    (ocr : α → Except String (List String)) : Except String (Option String) :=
  match acquire with
  | Except.error e => Except.error e
  | Except.ok img =>
      match (if geminiConfigured then gemini img else none) with
      | some answer =>
          if answer != "" then Except.ok (some answer) else ocrBranch ocr img
      | none => ocrBranch ocr img

/-- Embedding of `_get_captcha_answer()` as an `Except` computation with its
outer `except Exception: return None` handler rendered explicitly. -/
def get_captcha_answerE {α : Type} (acquire : Except String α)
    (geminiConfigured : Bool) (gemini : α → Option String)
    (ocr : α → Except String (List String)) : Except String (Option String) :=
  match get_captcha_answer_body acquire geminiConfigured gemini ocr with
  | Except.ok v => Except.ok v
  | Except.error _ => Except.ok none

/-- The value `_get_captcha_answer` returns to its caller. -/
def get_captcha_answer {α : Type} (acquire : Except String α)
    (geminiConfigured : Bool) (gemini : α → Option String)
    (ocr : α → Except String (List String)) : Option String :=
  match get_captcha_answerE acquire geminiConfigured gemini ocr with
  | Except.ok v => v
  | Except.error _ => none

/-- C9: for every image-acquisition outcome, configuration, vision-model
behaviour (exceptions included) and OCR behaviour (exceptions included), the
vision tier returns instead of raising, the whole captcha-answering pipeline
returns instead of raising, and whenever the vision tier yields nothing the
pipeline's answer is exactly the OCR tier's answer. -/
theorem captcha_answer_never_raises (α : Type) (acquire : Except String α)
    (geminiAvailable apiKeyConfigured : Bool) (setup : α → Except String Unit)
    (call : α → String → Nat → Except String String)
    (ocr : α → Except String (List String)) :
    (∀ img, (solve_captcha_with_geminiE geminiAvailable apiKeyConfigured
        (setup img) (call img)).isOk = true) ∧
    (get_captcha_answerE acquire (geminiAvailable && apiKeyConfigured)
        (fun img => solve_captcha_with_gemini geminiAvailable apiKeyConfigured
          (setup img) (call img)) ocr).isOk = true ∧
    (∀ img, acquire = Except.ok img →
      solve_captcha_with_gemini geminiAvailable apiKeyConfigured
          (setup img) (call img) = none →
      get_captcha_answer acquire (geminiAvailable && apiKeyConfigured)
          (fun i => solve_captcha_with_gemini geminiAvailable apiKeyConfigured
            (setup i) (call i)) ocr = ocrTierAnswer ocr img) := by
  refine ⟨?_, ?_, ?_⟩
  · intro img
    unfold solve_captcha_with_geminiE
    cases geminiAvailable with
    | false => rfl
    | true =>
      cases apiKeyConfigured with
      | false => rfl
      | true =>
        cases setup img with
        | ok u => rfl
        | error e => rfl
  · unfold get_captcha_answerE
    cases get_captcha_answer_body acquire (geminiAvailable && apiKeyConfigured)
        (fun img => solve_captcha_with_gemini geminiAvailable apiKeyConfigured
          (setup img) (call img)) ocr with
    | ok v => rfl
    | error e => rfl
  · intro img hacq hnone
    subst hacq
    have hbody :
        get_captcha_answer_body (Except.ok img)
            (geminiAvailable && apiKeyConfigured)
            (fun i => solve_captcha_with_gemini geminiAvailable apiKeyConfigured
              (setup i) (call i)) ocr = ocrBranch ocr img := by
      unfold get_captcha_answer_body
      cases geminiAvailable && apiKeyConfigured with
      | false => rfl
      | true =>
        dsimp only
        rw [hnone]
        rfl
    unfold get_captcha_answer get_captcha_answerE
    rw [hbody]
    unfold ocrBranch ocrTierAnswer
    cases ocr img with
    | error e => rfl
    | ok results => rfl

/-- Witness for C9 at a concrete run: the image acquisition succeeds, Gemini
is configured but every API call raises (no 429), so the vision tier yields
nothing and the pipeline answers with the OCR tier's result for the single
reading `"12+34"`, namely `"46"`. -/
theorem captcha_answer_never_raises_witness :
    get_captcha_answer (Except.ok ()) (true && true)
        (fun i => solve_captcha_with_gemini true true ((fun _ => Except.ok ()) i)
          ((fun _ _ _ => Except.error "boom") i))
        (fun _ => Except.ok ["12+34"]) =
      ocrTierAnswer (fun _ => Except.ok ["12+34"]) () ∧
    ocrTierAnswer (fun _ : Unit => Except.ok ["12+34"]) () = some "46" :=
  ⟨(captcha_answer_never_raises Unit (Except.ok ()) true true
      (fun _ => Except.ok ()) (fun _ _ _ => Except.error "boom")
      (fun _ => Except.ok ["12+34"])).2.2 () rfl (by decide),
   by decide⟩
